import Mathlib

/-!
Shallow embedding of `sawtooth_battleship/txn_family.py`
(class `BattleshipTransaction`): the transaction data model, the
validator `check_valid` / `is_valid`, and the applier `apply`, together
with theorems settling the specification's claims about them.

Python dicts holding a game record are embedded as a structure whose
fields are `Option`-valued (a missing dict key is `none`); reading a
missing key is a `KeyError`.  The transaction store (a dict from game
name to game record) is an association list keyed by `Option String`,
because Python happily uses `None` as a dict key and `self._name` may
be `None` in `apply`.  `BattleshipException` raise sites become the
constructors of `BattleshipError` (one per raise site, carrying the
exact message via `BattleshipError.message`); exceptions the code does
not intend — `KeyError` from a missing key, and the `NameError` raised
at line 258 of the source where the undefined local `state` is
formatted — become `PyError`.
-/

namespace Battleship

/-- A game record: the Python dict stored under the game's name.
The code only ever reads or writes the keys `State`, `Player1` and
`Player2`; `none` means the key is absent from the dict. -/
structure Game where
  State : Option String
  Player1 : Option String
  Player2 : Option String
deriving DecidableEq, Repr

/-- Errors that are not `BattleshipException`: a `KeyError` from
reading a missing dict key, and the `NameError` raised by
`apply`'s fallback branch, which formats the undefined local
variable `state`. -/
inductive PyError where
  | keyError
  | nameError
deriving DecidableEq, Repr

/-- One constructor per `raise BattleshipException(...)` site in
`check_valid`; the exact message of each site is recovered by
`BattleshipError.message`. -/
inductive BattleshipError where
  | invalidTransaction
  | nameNotSet
  | actionNotSet
  | gameAlreadyExists
  | nameCharsNotAllowed
  | joinGameNotFound
  | fireGameNotFound
  | gameComplete
  | invalidPlayer1
  | invalidPlayer2
  | invalidStateFire (st : String)
  | invalidAction (a : String)
deriving DecidableEq, Repr

/-- The message string each raise site passes to `BattleshipException`. -/
def BattleshipError.message : BattleshipError → String
  | .invalidTransaction => "invalid transaction"
  | .nameNotSet => "name not set"
  | .actionNotSet => "action not set"
  | .gameAlreadyExists => "game already exists"
  | .nameCharsNotAllowed =>
      "Only letters a-z A-Z and numbers 0-9 are allowed in the game name!"
  | .joinGameNotFound => "Trying to join a game that does not exist"
  | .fireGameNotFound => "no such game"
  | .gameComplete => "game complete"
  | .invalidPlayer1 => "invalid player 1"
  | .invalidPlayer2 => "invalid player 2"
  | .invalidStateFire st => "invalid state: " ++ st
  | .invalidAction a => "invalid action: " ++ a

/-- What a call into the transaction can raise: a structured
`BattleshipException`, or an uncontrolled Python error. -/
inductive Err where
  | battleship (e : BattleshipError)
  | py (e : PyError)
deriving DecidableEq, Repr

/-- The transaction store: a dict from game name to game record.
Keys have type `Option String` because `self._name` may be `None`. -/
abbrev Store := List (Option String × Game)

/-- Python `store[k]` as an `Option` (dict lookup). -/
def Store.lookup : Store → Option String → Option Game
  | [], _ => none
  | (k', g) :: rest, k => if k = k' then some g else Store.lookup rest k

/-- Python `store[k] = g`: replace the existing binding in place, or
append a new one (dicts preserve insertion order). -/
def Store.set : Store → Option String → Game → Store
  | [], k, g => [(k, g)]
  | (k', g') :: rest, k, g =>
      if k = k' then (k, g) :: rest else (k', g') :: Store.set rest k g

/-- `BattleshipTransaction.__init__`: keeps `_name` and `_action`
from minfo (`None` when the key is missing).  `OriginatorID` is the
authenticated signer set by the base class; `superIsValid` models the
verdict of `journal.transaction.Transaction.is_valid`, the external
base-class check `check_valid` consults first. -/
structure BattleshipTransaction where
  _name : Option String
  _action : Option String
  OriginatorID : String
  superIsValid : Bool
deriving DecidableEq, Repr

/-- The wire record handed to `__init__` as `minfo`: besides `Name`
and `Action` it may carry `Board`, `Column` and `Row`. -/
structure Minfo where
  Name : Option String
  Action : Option String
  Board : Option (List String)
  Column : Option String
  Row : Option Int
deriving DecidableEq, Repr

/-- `__init__` reads only `Name` and `Action` from minfo; `Board`,
`Column` and `Row` are dropped (the TODO at line 92 of the source). -/
def BattleshipTransaction.ofMinfo (m : Minfo) (oid : String)
    (sv : Bool) : BattleshipTransaction :=
  { _name := m.Name, _action := m.Action,
    OriginatorID := oid, superIsValid := sv }

/-- A character accepted by the game-name pattern `[a-zA-Z0-9]`. -/
def isAllowedNameChar (c : Char) : Bool :=
  ('a' ≤ c && c ≤ 'z') || ('A' ≤ c && c ≤ 'Z') || ('0' ≤ c && c ≤ '9')

/-- Python `re.match("^[a-zA-Z0-9]*$", s)`: every character is
alphanumeric, except that `$` also matches just before one trailing
newline. -/
def re_match_name (s : String) : Bool :=
  s.toList.all isAllowedNameChar ||
    (s.toList.getLast? = some '\n' && s.toList.dropLast.all isAllowedNameChar)

/-- `BattleshipTransaction.check_valid` (lines 120-202): the validator.
Returns `.ok ()` when the method returns normally and `.error` when it
raises.  The branch structure follows the Python line by line: base
class check, name set, action set, then the per-action elif chain. -/
def check_valid (t : BattleshipTransaction) (s : Store) : Except Err Unit :=
  if t.superIsValid = false then
    .error (.battleship .invalidTransaction)
  else if t._name = none ∨ t._name = some "" then
    .error (.battleship .nameNotSet)
  else if t._action = none ∨ t._action = some "" then
    .error (.battleship .actionNotSet)
  else if t._action = some "CREATE" then
    if (s.lookup t._name).isSome then
      .error (.battleship .gameAlreadyExists)
    else if re_match_name ((t._name).getD "") = false then
      .error (.battleship .nameCharsNotAllowed)
    else .ok ()
  else if t._action = some "JOIN" then
    if (s.lookup t._name).isNone then
      .error (.battleship .joinGameNotFound)
    else .ok ()
  else if t._action = some "FIRE" then
    match s.lookup t._name with
    | none => .error (.battleship .fireGameNotFound)
    | some game =>
      match game.State with
      | none => .error (.py .keyError)
      | some st =>
        if st = "P1-WIN" ∨ st = "P2-WIN" then
          .error (.battleship .gameComplete)
        else if st = "P1-NEXT" then
          match game.Player1 with
          | none => .error (.py .keyError)
          | some p =>
            if p ≠ t.OriginatorID then .error (.battleship .invalidPlayer1)
            else .ok ()
        else if st = "P2-NEXT" then
          match game.Player2 with
          | none => .error (.py .keyError)
          | some p =>
            if p ≠ t.OriginatorID then .error (.battleship .invalidPlayer2)
            else .ok ()
        else .error (.battleship (.invalidStateFire st))
  else
    .error (.battleship (.invalidAction ((t._action).getD "")))

/-- `BattleshipTransaction.is_valid` (lines 105-118): calls
`check_valid`, catches `BattleshipException` and returns `False`;
returns `True` when no exception is raised.  Any other exception
propagates. -/
def is_valid (t : BattleshipTransaction) (s : Store) : Except Err Bool :=
  match check_valid t s with
  | .ok _ => .ok true
  | .error (.battleship _) => .ok false
  | .error (.py e) => .error (.py e)

/-- `BattleshipTransaction.apply` (lines 205-258): the applier.
CREATE writes a fresh record `{'State': 'NEW'}`; JOIN copies the
record and unconditionally sets `State` to `'P1-NEXT'`; FIRE copies
the record and flips `'P1-NEXT'` to `'P2-NEXT'` and back; the fallback
branch formats the undefined local `state`, so it raises `NameError`,
not `BattleshipException`. -/
def apply (t : BattleshipTransaction) (s : Store) : Except Err Store :=
  if t._action = some "CREATE" then
    .ok (s.set t._name { State := some "NEW", Player1 := none, Player2 := none })
  else if t._action = some "JOIN" then
    match s.lookup t._name with
    | none => .error (.py .keyError)
    | some game =>
      .ok (s.set t._name { game with State := some "P1-NEXT" })
  else if t._action = some "FIRE" then
    match s.lookup t._name with
    | none => .error (.py .keyError)
    | some game =>
      match game.State with
      | none => .error (.py .keyError)
      | some st =>
        if st = "P1-NEXT" then
          .ok (s.set t._name { game with State := some "P2-NEXT" })
        else if st = "P2-NEXT" then
          .ok (s.set t._name { game with State := some "P1-NEXT" })
        else .ok (s.set t._name game)
  else
    .error (.py .nameError)

/-- Modelled from the spec: the host journal dispatch is not under
src/; per §2 and §7 the Applier is "invoked only after Validator
accepts" and "apply is only reachable after full validation succeeds",
so a rejected action leaves the store unchanged. -/
def handleTxn (t : BattleshipTransaction) (s : Store) : Except Err Store :=
  match is_valid t s with
  | .ok true => apply t s
  | .ok false => .ok s
  | .error e => .error e

/-- C1: evaluating `apply` on a Fire against a game in `P1-NEXT`: the
only effect is flipping `State` to `P2-NEXT`.  No hit/miss outcome is
recorded and no win state is ever produced (the reveal, last-fire
bookkeeping and win detection are the TODOs at lines 236-245 of the
source; the record has no target boards at all because `Join` never
stores a board). -/
theorem C1_fire_apply_only_flips_state :
    apply
      { _name := some "g1", _action := some "FIRE",
        OriginatorID := "alice", superIsValid := true }
      [(some "g1",
        { State := some "P1-NEXT", Player1 := some "alice",
          Player2 := some "bob" })]
    = .ok [(some "g1",
        { State := some "P2-NEXT", Player1 := some "alice",
          Player2 := some "bob" })] := rfl

/-- C2: evaluating `apply` on the first Join of a game in `NEW`: the
code unconditionally sets `State` to `P1-NEXT` (instead of remaining
`NEW`) and sets neither player slot nor board (the TODOs at lines
219-226 of the source). -/
theorem C2_first_join_jumps_to_p1_next :
    apply
      { _name := some "g2", _action := some "JOIN",
        OriginatorID := "bob", superIsValid := true }
      [(some "g2",
        { State := some "NEW", Player1 := none, Player2 := none })]
    = .ok [(some "g2",
        { State := some "P1-NEXT", Player1 := none, Player2 := none })] := rfl

/-- C3: a Join naming a game in the terminal state `P1-WIN` is
accepted by `check_valid` (only existence is checked; the state check
is the TODO at line 153) and `apply` then rewrites the terminal game's
`State` to `P1-NEXT` — the terminal state is neither protected by the
Validator nor left unchanged by the Applier. -/
theorem C3_join_mutates_terminal_game :
    check_valid
      { _name := some "g3", _action := some "JOIN",
        OriginatorID := "carol", superIsValid := true }
      [(some "g3",
        { State := some "P1-WIN", Player1 := some "alice",
          Player2 := some "bob" })] = .ok () ∧
    apply
      { _name := some "g3", _action := some "JOIN",
        OriginatorID := "carol", superIsValid := true }
      [(some "g3",
        { State := some "P1-WIN", Player1 := some "alice",
          Player2 := some "bob" })]
    = .ok [(some "g3",
        { State := some "P1-NEXT", Player1 := some "alice",
          Player2 := some "bob" })] := ⟨rfl, rfl⟩

/-- C4: `check_valid` accepts a Join whose signer is already
`Player1` of the game, and also accepts a Join against a game whose
state is not `NEW`; the only Join check performed is that the game
exists (state, board and signer checks are the TODOs at lines 153-165
of the source). -/
theorem C4_join_checks_existence_only :
    check_valid
      { _name := some "g4", _action := some "JOIN",
        OriginatorID := "alice", superIsValid := true }
      [(some "g4",
        { State := some "NEW", Player1 := some "alice",
          Player2 := none })] = .ok () ∧
    check_valid
      { _name := some "g4", _action := some "JOIN",
        OriginatorID := "alice", superIsValid := true }
      [(some "g4",
        { State := some "P2-NEXT", Player1 := some "alice",
          Player2 := some "bob" })] = .ok () := ⟨rfl, rfl⟩

/-- C5: the constructor drops `Column` and `Row` (as well as `Board`)
from the wire record, and `check_valid` accepts a Fire carrying the
out-of-range coordinates column `Z`, row `99`; no range check and no
already-fired check exists (the TODOs at lines 170-172 and 194-196 of
the source), so a repeated Fire at the same cell is accepted
identically. -/
theorem C5_fire_coordinates_never_checked :
    BattleshipTransaction.ofMinfo
      { Name := some "g5", Action := some "FIRE", Board := none,
        Column := some "Z", Row := some 99 } "alice" true
    = { _name := some "g5", _action := some "FIRE",
        OriginatorID := "alice", superIsValid := true } ∧
    check_valid
      (BattleshipTransaction.ofMinfo
        { Name := some "g5", Action := some "FIRE", Board := none,
          Column := some "Z", Row := some 99 } "alice" true)
      [(some "g5",
        { State := some "P1-NEXT", Player1 := some "alice",
          Player2 := some "bob" })] = .ok () := ⟨rfl, rfl⟩

/-- C6 counterexample: the name `ab!` fails the allowed character
set, yet a Create naming an existing game `ab!` is rejected with the
action-specific `gameAlreadyExists`, not the character-set error — so
the character-set check is not evaluated before the action-specific
check; and a Join with the same ill-formed name is accepted outright,
so the character-set check is not applied to every action. -/
theorem C6_charset_check_not_first :
    re_match_name "ab!" = false ∧
    check_valid
      { _name := some "ab!", _action := some "CREATE",
        OriginatorID := "p", superIsValid := true }
      [(some "ab!",
        { State := some "NEW", Player1 := none, Player2 := none })]
    = .error (.battleship .gameAlreadyExists) ∧
    check_valid
      { _name := some "ab!", _action := some "JOIN",
        OriginatorID := "p", superIsValid := true }
      [(some "ab!",
        { State := some "NEW", Player1 := none, Player2 := none })]
    = .ok () := ⟨by decide, rfl, rfl⟩

/-- Helper for the amended C6: the character-set rejection can only
arise from the CREATE branch of `check_valid`. -/
theorem charset_error_only_from_create (t : BattleshipTransaction) (s : Store)
    (h : check_valid t s = .error (.battleship .nameCharsNotAllowed)) :
    t._action = some "CREATE" := by
  by_contra hC
  unfold check_valid at h
  rw [if_neg hC] at h
  repeat' split at h
  all_goals simp_all

/-- C6 amended: for every action, validation checks presence of name
and action first, rejecting at the first failure before any
action-specific check; the character-set check on the name is
performed only for Create, and only after the name-already-exists
check. -/
theorem C6_amended_presence_first_charset_create_only
    (t : BattleshipTransaction) (s : Store) (hsv : t.superIsValid = true) :
    ((t._name = none ∨ t._name = some "") →
        check_valid t s = .error (.battleship .nameNotSet)) ∧
    (¬(t._name = none ∨ t._name = some "") →
      (t._action = none ∨ t._action = some "") →
        check_valid t s = .error (.battleship .actionNotSet)) ∧
    (¬(t._name = none ∨ t._name = some "") → t._action = some "CREATE" →
      (s.lookup t._name).isSome = true →
        check_valid t s = .error (.battleship .gameAlreadyExists)) ∧
    (t._action ≠ some "CREATE" →
        check_valid t s ≠ .error (.battleship .nameCharsNotAllowed)) := by
  refine ⟨?_, ?_, ?_, ?_⟩
  · intro h
    unfold check_valid
    rw [if_neg (by simp [hsv]), if_pos h]
  · intro h1 h2
    unfold check_valid
    rw [if_neg (by simp [hsv]), if_neg h1, if_pos h2]
  · intro h1 h2 h3
    unfold check_valid
    rw [if_neg (by simp [hsv]), if_neg h1, if_neg (by rw [h2]; decide),
      if_pos h2, if_pos h3]
  · intro hC h
    exact hC (charset_error_only_from_create t s h)

/-- Witness for the amended C6 at a concrete transaction with a
missing name. -/
theorem C6_amended_witness :
    check_valid
      { _name := none, _action := some "CREATE",
        OriginatorID := "p", superIsValid := true } []
    = .error (.battleship .nameNotSet) :=
  (C6_amended_presence_first_charset_create_only
    { _name := none, _action := some "CREATE",
      OriginatorID := "p", superIsValid := true } [] rfl).1 (Or.inl rfl)

/-- C7: a Create naming a game already present in the store is
rejected by `check_valid` with the `game already exists` reason (the
spec's NameTaken), `is_valid` reports `False`, and the rejected action
leaves the store — with the existing record — unchanged. -/
theorem C7_second_create_rejected_store_unchanged
    (t : BattleshipTransaction) (s : Store) (n : String) (g : Game)
    (hsv : t.superIsValid = true) (hn : t._name = some n) (hne : n ≠ "")
    (ha : t._action = some "CREATE") (hg : s.lookup (some n) = some g) :
    check_valid t s = .error (.battleship .gameAlreadyExists) ∧
    is_valid t s = .ok false ∧
    handleTxn t s = .ok s := by
  have hcv : check_valid t s = .error (.battleship .gameAlreadyExists) := by
    unfold check_valid
    rw [if_neg (by simp [hsv]), if_neg (by simp [hn, hne]),
      if_neg (by rw [ha]; decide), if_pos ha,
      if_pos (by rw [hn, hg]; rfl)]
  have hiv : is_valid t s = .ok false := by simp [is_valid, hcv]
  exact ⟨hcv, hiv, by simp [handleTxn, hiv]⟩

/-- Witness for C7 at a concrete second Create of `abc`. -/
theorem C7_witness :
    check_valid
      { _name := some "abc", _action := some "CREATE",
        OriginatorID := "p", superIsValid := true }
      [(some "abc",
        { State := some "NEW", Player1 := none, Player2 := none })]
    = .error (.battleship .gameAlreadyExists) ∧
    is_valid
      { _name := some "abc", _action := some "CREATE",
        OriginatorID := "p", superIsValid := true }
      [(some "abc",
        { State := some "NEW", Player1 := none, Player2 := none })]
    = .ok false ∧
    handleTxn
      { _name := some "abc", _action := some "CREATE",
        OriginatorID := "p", superIsValid := true }
      [(some "abc",
        { State := some "NEW", Player1 := none, Player2 := none })]
    = .ok [(some "abc",
        { State := some "NEW", Player1 := none, Player2 := none })] :=
  C7_second_create_rejected_store_unchanged _ _ "abc"
    { State := some "NEW", Player1 := none, Player2 := none }
    rfl rfl (by decide) rfl rfl

/-- C8: an action record with the unknown action `QUIT` is rejected
by `check_valid` with the structured `invalid action` exception, but
`apply` on the same record raises `NameError` — its fallback branch
formats the undefined local variable `state` (line 258 of the source)
— an uncontrolled failure, not a `BattleshipException`. -/
theorem C8_unknown_action_apply_raises_nameerror :
    check_valid
      { _name := some "g8", _action := some "QUIT",
        OriginatorID := "p", superIsValid := true } []
    = .error (.battleship (.invalidAction "QUIT")) ∧
    apply
      { _name := some "g8", _action := some "QUIT",
        OriginatorID := "p", superIsValid := true } []
    = .error (.py .nameError) := ⟨rfl, rfl⟩

/-- C9: validation and application are deterministic — identical
transaction, store and signer inputs produce identical verdicts from
`check_valid` and `is_valid` and an identical resulting store from
`apply`. -/
theorem C9_deterministic (t t' : BattleshipTransaction) (s s' : Store)
    (ht : t = t') (hs : s = s') :
    check_valid t s = check_valid t' s' ∧
    is_valid t s = is_valid t' s' ∧
    apply t s = apply t' s' := by
  subst ht hs
  exact ⟨rfl, rfl, rfl⟩

/-- Witness for C9 at a concrete Create transaction. -/
theorem C9_witness :
    check_valid
      { _name := some "w9", _action := some "CREATE",
        OriginatorID := "p", superIsValid := true } []
    = check_valid
      { _name := some "w9", _action := some "CREATE",
        OriginatorID := "p", superIsValid := true } [] ∧
    is_valid
      { _name := some "w9", _action := some "CREATE",
        OriginatorID := "p", superIsValid := true } []
    = is_valid
      { _name := some "w9", _action := some "CREATE",
        OriginatorID := "p", superIsValid := true } [] ∧
    apply
      { _name := some "w9", _action := some "CREATE",
        OriginatorID := "p", superIsValid := true } []
    = apply
      { _name := some "w9", _action := some "CREATE",
        OriginatorID := "p", superIsValid := true } [] :=
  C9_deterministic _ _ _ _ rfl rfl

/-- C10: `is_valid` returns `True` exactly when `check_valid` raises
nothing, returns `False` exactly when `check_valid` raises a
`BattleshipException`, and propagates any other exception unchanged;
neither function returns a store, mirroring that neither Python method
writes to it. -/
theorem C10_is_valid_characterization (t : BattleshipTransaction) (s : Store) :
    (is_valid t s = .ok true ↔ check_valid t s = .ok ()) ∧
    (is_valid t s = .ok false ↔
      ∃ e, check_valid t s = .error (Err.battleship e)) ∧
    (∀ p, is_valid t s = .error (.py p) ↔
      check_valid t s = .error (.py p)) := by
  rcases hcv : check_valid t s with e | u
  · cases e with
    | battleship b => simp [is_valid, hcv]
    | py p => simp [is_valid, hcv]
  · cases u
    simp [is_valid, hcv]

end Battleship
